import Mathlib

/-!
Shallow embedding of the hybrid XBRL validation pipeline
(src/python: dmp_concept_resolver.py, validation_logic.py,
hybrid_validation_engine.py, arelle_runner.py, rule_parser.py,
rule_evaluator.py, rule_engine.py) together with theorems about
concept resolution, severity assignment, result synthesis,
architecture detection and rule evaluation.

Python strings are modelled as Lean `String`, relational-store lookups as
abstract functions into `Option`, raised exceptions as `Except.error` or an
`Option.none`-shaped input, and floating-point percentages as exact rationals
rounded to the nearest tenth.
-/

/-! ## String helpers (structural versions of the Python str operations) -/

/-- Test whether `needle` occurs at the start of `hay` (character lists). -/
def charsHavePre (needle hay : List Char) : Bool :=
  match needle, hay with
  | [], _ => true
  | _ :: _, [] => false
  | a :: as, b :: bs => a == b && charsHavePre as bs

/-- Test whether `needle` occurs contiguously anywhere inside `hay`. -/
def charsContain (hay needle : List Char) : Bool :=
  match hay with
  | [] => needle.isEmpty
  | _ :: rest => charsHavePre needle hay || charsContain rest needle

/-- Python `needle in hay` on strings. -/
def strContains (hay needle : String) : Bool :=
  charsContain hay.toList needle.toList

/-- Python `s.lower()`. -/
def strLower (s : String) : String :=
  String.mk (s.toList.map Char.toLower)

/-- Split a character list at every occurrence of `sep`. -/
def splitChars (sep : Char) : List Char → List (List Char)
  | [] => [[]]
  | c :: cs =>
    let rest := splitChars sep cs
    if c == sep then [] :: rest
    else
      match rest with
      | [] => [[c]]
      | r :: rs => (c :: r) :: rs

/-- Python `s.split(sep)` for a one-character separator. -/
def splitStr (sep : Char) (s : String) : List String :=
  (splitChars sep s.toList).map String.mk

/-- Python `s.startswith(p)`. -/
def strStarts (s p : String) : Bool :=
  charsHavePre p.toList s.toList

/-- Python `s.split(sep)[-1]`. -/
def lastSplitPart (sep : Char) (s : String) : String :=
  (splitStr sep s).getLastD s

/-! ## Concept resolver (dmp_concept_resolver.py, DMPConceptResolver) -/

/-- Dictionary concept row as assembled by the resolver strategies
(ConceptCode, ConceptLabel, ConceptType, MetricCode, MemberXbrlCode, source). -/
structure DmpConcept where
  conceptCode : String
  conceptLabel : String
  conceptType : String
  metricCode : String
  memberXbrlCode : String
  source : String
deriving DecidableEq, Repr

/-- Python `DMPConceptResolver._clean_concept_name`:
`concept_name.split(cln, 1)[1]` when a colon occurs, else the name unchanged. -/
def cleanConceptName (s : String) : String :=
  match splitStr ':' s with
  | [] => s
  | [_] => s
  | _ :: rest => String.intercalate ":" rest

/-- The five relational-store search strategies of DMPConceptResolver, as
abstract pure lookups.  The dictionary is read-only during a validation run, so
each strategy is a function of its query string; a strategy whose table is
missing, whose SQL fails, or that is skipped for the active dictionary
generation answers `none` (each Python strategy catches its own exceptions and
returns None).  `exactMatch` models `_search_by_exact_match` (applied to the
full fact name), `cleanNameMatch` models `_search_by_clean_name` (applied to
the namespace-stripped name), `variantMatch` models
`_search_by_prefix_variants`, `substringMatch` models
`_search_by_partial_match` (applied to the namespace-stripped name), and
`memberMatch` models `_search_in_member_table`. -/
structure DmpStore where
  exactMatch : String → Option DmpConcept
  cleanNameMatch : String → Option DmpConcept
  variantMatch : String → Option DmpConcept
  substringMatch : String → Option DmpConcept
  memberMatch : String → Option DmpConcept

/-- Python `DMPConceptResolver._search_using_queries_manager`: the final
catch-all hook literally returns None. -/
def searchUsingQueriesManager (_name : String) : Option DmpConcept :=
  none

/-- The ordered resolution cascade of `resolve_concept_from_dmp` (the chain of
`or`-expressions): first strategy with a non-None answer wins. -/
def searchCascade (db : DmpStore) (name : String) : Option DmpConcept :=
  match db.exactMatch name with
  | some c => some c
  | none =>
    match db.cleanNameMatch (cleanConceptName name) with
    | some c => some c
    | none =>
      match db.variantMatch name with
      | some c => some c
      | none =>
        match db.substringMatch (cleanConceptName name) with
        | some c => some c
        | none =>
          match db.memberMatch name with
          | some c => some c
          | none => searchUsingQueriesManager name

/-- The strategy answers in cascade order (for stating the order property). -/
def strategyResults (db : DmpStore) (name : String) : List (Option DmpConcept) :=
  [db.exactMatch name,
   db.cleanNameMatch (cleanConceptName name),
   db.variantMatch name,
   db.substringMatch (cleanConceptName name),
   db.memberMatch name,
   searchUsingQueriesManager name]

/-- The resolver's in-memory cache `self.concept_cache` (a Python dict keyed by
the exact fact name), modelled as an association list. -/
abbrev ConceptCache := List (String × DmpConcept)

/-- Python `concept_name in self.concept_cache` plus the dict read. -/
def cacheLookup (cache : ConceptCache) (k : String) : Option DmpConcept :=
  match cache.find? (fun p => p.1 == k) with
  | some p => some p.2
  | none => none

/-- Python `DMPConceptResolver.resolve_concept_from_dmp`: answer a cached
resolution immediately; otherwise run the cascade and cache a success.  A
failed resolution is not cached and the surrounding try/except returns None on
any raised exception (strategies already absorb their own). -/
def resolveConceptFromDmp (db : DmpStore) (cache : ConceptCache) (name : String) :
    Option DmpConcept × ConceptCache :=
  match cacheLookup cache name with
  | some c => (some c, cache)
  | none =>
    match searchCascade db name with
    | some c => (some c, (name, c) :: cache)
    | none => (none, cache)

/-! ## External-validator output processing (validation_logic.py,
ValidationProcessor.process_arelle_output) -/

/-- One entry of the `errors` collection built by `process_arelle_output`. -/
structure ErrorEntry where
  message : String
  severity : String
  code : String
  concept : String
deriving DecidableEq, Repr

/-- Severity chosen for a concept the resolver found:
`info` when the match came from the member table, else `warning`. -/
def severityForResolved (c : DmpConcept) : String :=
  if c.source = "tMember" then "info" else "warning"

/-- The missing concepts the resolver found, with their resolutions, in input
order (the `resolved_concepts` dict preserves first-insertion order; the
resolver behaves as a pure function of the name within one run, its cache only
repeating earlier answers). -/
def resolvedPairs (resolve : String → Option DmpConcept) (missing : List String) :
    List (String × DmpConcept) :=
  missing.filterMap (fun n => (resolve n).map (fun d => (n, d)))

/-- The missing concepts the resolver could not find, in input order. -/
def unresolvedNames (resolve : String → Option DmpConcept) (missing : List String) :
    List String :=
  missing.filter (fun n => (resolve n).isNone)

/-- Error entries for resolved concepts (first loop of the conversion, issue
ids counting up from `i`). -/
def resolvedEntriesFrom : List (String × DmpConcept) → Nat → List ErrorEntry
  | [], _ => []
  | (n, d) :: rest, i =>
    { message := "Concept resolved in DMP database: " ++ n
      severity := severityForResolved d
      code := "CONCEPT-RESOLVED-" ++ toString i
      concept := n } :: resolvedEntriesFrom rest (i + 1)

/-- Error entries for unresolved concepts (second loop, severity error). -/
def unresolvedEntriesFrom : List String → Nat → List ErrorEntry
  | [], _ => []
  | n :: rest, i =>
    { message := "Missing schema concept definition: " ++ n
      severity := "error"
      code := "MISSING-CONCEPT-" ++ toString i
      concept := n } :: unresolvedEntriesFrom rest (i + 1)

/-- The `errors` list produced by `process_arelle_output` from the extracted
missing concepts: resolved concepts first (ids from 1), then truly unresolved
ones (ids continuing). -/
def processArelleOutputErrors (resolve : String → Option DmpConcept)
    (missing : List String) : List ErrorEntry :=
  let rs := resolvedPairs resolve missing
  let us := unresolvedNames resolve missing
  resolvedEntriesFrom rs 1 ++ unresolvedEntriesFrom us (rs.length + 1)

/-! ## Architecture detection (hybrid_validation_engine.py,
detect_architecture_version) -/

/-- Filename substrings checked first for architecture 1.0. -/
def arch10FilenameTokens : List String :=
  ["finrep020400", "finrep9indgaap", "gb_finrep", "_2021-06-30_", "_2020",
   "fulltaxonomy3.0", "phase2", "dummylei", "_20201218", "finrep2.4"]

/-- Namespace substrings (matched lowercased) for architecture 1.0. -/
def arch10NsTokens : List String :=
  ["dpm/3.0", "eu/cr/3.0", "finrep/3.0", "corep/3.0", "finrep/2.4",
   "gb_finrep", "finrep020400", "finrep9indgaap", "phase2"]

/-- ARCHITECTURES arch_1_0 namespaces (matched case-sensitively). -/
def arch10ExactNs : List String :=
  ["xbrl/crr/dict/dpm/3.0", "eba.europa.eu/eu/cr/3.0"]

/-- Namespace substrings (matched lowercased) for architecture 2.0. -/
def arch20NsTokens : List String :=
  ["dpm/4.0", "eu/cr/4.0", "finrep/4.0", "corep/4.0", "eba_", "find_",
   "errata5", "taxo_package_4.0"]

/-- ARCHITECTURES arch_2_0 namespaces (matched case-sensitively). -/
def arch20ExactNs : List String :=
  ["xbrl/dpm/4.0", "eba.europa.eu/eu/cr/4.0"]

/-- Filename substrings used by the final fallback step. -/
def fallbackFilenameTokens : List String :=
  ["2021", "2020", "phase2", "fulltaxonomy3"]

/-- Python `os.path.basename` for forward-slash paths. -/
def baseName (path : String) : String :=
  (splitStr '/' path).getLastD path

/-- Does a namespace URI match an architecture 1.0 pattern or exact namespace? -/
def nsMatchesArch10 (uri : String) : Bool :=
  arch10NsTokens.any (fun p => strContains (strLower uri) p) ||
  arch10ExactNs.any (fun p => strContains uri p)

/-- Does a namespace URI match an architecture 2.0 pattern or exact namespace? -/
def nsMatchesArch20 (uri : String) : Bool :=
  arch20NsTokens.any (fun p => strContains (strLower uri) p) ||
  arch20ExactNs.any (fun p => strContains uri p)

/-- Namespace binding test of the EBA heuristic:
`prefix.startswith(eba_) or eba in prefix.lower()`. -/
def ebaPfx (pfx : String) : Bool :=
  strStarts pfx "eba_" || strContains (strLower pfx) "eba"

/-- The lowercased basename computed at the top of
`detect_architecture_version`. -/
def detectFilename (xbrlPath : String) : String :=
  strLower (baseName xbrlPath)

/-- Python `detect_architecture_version`.  `doc = some nsMap` models a document
that `ET.parse` read successfully, with the namespace bindings collected from
the root attributes (and, when those were empty, the bounded descendant scan);
`doc = none` models a parse failure or any other raised exception, which the
surrounding try/except turns into `unknown`.  The filename checks run before
parsing, exactly as in the source. -/
def detectArchitectureVersion (xbrlPath : String)
    (doc : Option (List (String × String))) : String :=
  if arch10FilenameTokens.any (fun p => strContains (detectFilename xbrlPath) p) then
    "arch_1_0"
  else
    match doc with
    | none => "unknown"
    | some namespaces =>
      if namespaces.any (fun kv => nsMatchesArch10 kv.2) then "arch_1_0"
      else if namespaces.any (fun kv => nsMatchesArch20 kv.2) then "arch_2_0"
      else if namespaces.any (fun kv => ebaPfx kv.1) then "arch_2_0"
      else if fallbackFilenameTokens.any
          (fun p => strContains (detectFilename xbrlPath) p) then "arch_1_0"
      else "arch_2_0"

/-! ## Resolution rate (hybrid_validation_engine.py,
HybridValidationEngine._resolve_concepts_in_dmp) -/

/-- Python `f-string` formatting of a non-negative float with one decimal place
and a trailing percent sign, modelled by exact rational arithmetic rounded to
the nearest tenth. -/
def formatOneDecimalPercent (q : ℚ) : String :=
  let tenths : ℕ := (round (q * 10)).toNat
  toString (tenths / 10) ++ "." ++ toString (tenths % 10) ++ "%"

/-- The `resolution_rate` string of `_resolve_concepts_in_dmp`:
`resolved/business*100` to one decimal place when there are business facts,
the literal `0%` otherwise. -/
def resolutionRateString (resolvedFacts businessFacts : ℕ) : String :=
  if 0 < businessFacts then
    formatOneDecimalPercent ((resolvedFacts : ℚ) / (businessFacts : ℚ) * 100)
  else "0%"

/-! ## Result synthesis (hybrid_validation_engine.py,
HybridValidationEngine._synthesize_results, and arelle_runner.py,
ArelleRunner._execute_arelle_validation) -/

/-- A diagnostic extracted by the external-validator adapter (message plus the
category assigned by `_categorize_arelle_message`). -/
structure ArelleIssue where
  message : String
  category : String
deriving DecidableEq, Repr

/-- The `arelle_validation` stage record consumed by `_synthesize_results`:
its status string and its `errors` / `warnings` lists (both empty when the
stage dict carries no such keys, as after a timeout or error). -/
structure ArelleStage where
  status : String
  errors : List ArelleIssue
  warnings : List ArelleIssue
deriving DecidableEq, Repr

/-- One element of the synthesized `validation_results` list. -/
structure SynthIssue where
  issueType : String
  severity : String
  message : String
  category : String
  source : String
deriving DecidableEq, Repr

/-- The parts of the synthesized `final_report` the claims are about. -/
structure SynthesisReport where
  arelleStageStatus : String
  validationResults : List SynthIssue
  totalErrors : ℕ
  totalWarnings : ℕ
  overallStatus : String
deriving DecidableEq, Repr

/-- Conversion of one external-validator error into a synthesized issue. -/
def arelleErrorIssue (e : ArelleIssue) : SynthIssue :=
  { issueType := "business_rule_violation", severity := "error",
    message := e.message, category := e.category, source := "arelle_validation" }

/-- Conversion of one external-validator warning into a synthesized issue. -/
def arelleWarningIssue (w : ArelleIssue) : SynthIssue :=
  { issueType := "business_rule_warning", severity := "warning",
    message := w.message, category := w.category, source := "arelle_validation" }

/-- The overall-status decision chain at the end of `_synthesize_results`. -/
def overallStatusOf (totalErrors totalWarnings : ℕ) (rate : ℚ) : String :=
  if 0 < totalErrors then "VALIDATION_FAILED"
  else if 0 < totalWarnings then "VALIDATION_WARNINGS"
  else if 90 ≤ rate then "EXCELLENT"
  else if 75 ≤ rate then "VERY_GOOD"
  else if 60 ≤ rate then "GOOD"
  else if 40 ≤ rate then "PARTIAL"
  else "POOR"

/-- Python `HybridValidationEngine._synthesize_results`, restricted to the
fields the claims mention.  External-validator errors and warnings are
extracted only when that stage completed; DMP validation items are appended
and counted by severity; `rate` is the numeric value parsed from the
`resolution_rate` string of the concept-resolution stage. -/
def synthesizeResults (arelle : ArelleStage) (dmpItems : List SynthIssue)
    (rate : ℚ) : SynthesisReport :=
  let active := arelle.status = "completed"
  let errIssues := if active then arelle.errors.map arelleErrorIssue else []
  let warnIssues := if active then arelle.warnings.map arelleWarningIssue else []
  let totalErrors :=
    errIssues.length + (dmpItems.filter (fun i => i.severity == "error")).length
  let totalWarnings :=
    warnIssues.length + (dmpItems.filter (fun i => i.severity == "warning")).length
  { arelleStageStatus := arelle.status
    validationResults := errIssues ++ warnIssues ++ dmpItems
    totalErrors := totalErrors
    totalWarnings := totalWarnings
    overallStatus := overallStatusOf totalErrors totalWarnings rate }

/-- Python `ArelleRunner._execute_arelle_validation` on
`subprocess.TimeoutExpired`: status `timeout` and this error message. -/
def arelleExecTimeoutResult : String × String :=
  ("timeout", "Arelle validation timed out after 120 seconds")

/-! ## Rule parsing and evaluation (rule_parser.py DMPRuleParser,
rule_evaluator.py DMPRuleEvaluator) -/

/-- Python `DMPRuleParser._determine_execution_method`; `ruleType` arrives
already lowercased by `process_rule`. -/
def determineExecutionMethod (ruleType expression : String) : String :=
  if strContains ruleType "calculation" || strContains (strLower expression) "sum(" then
    "calculation_check"
  else if strContains ruleType "existence" || strContains (strLower expression) "exists(" then
    "existence_check"
  else if strContains ruleType "consistency" ||
      ["=", ">", "<"].any (fun op => strContains expression op) then
    "consistency_check"
  else if strContains ruleType "conditional" || strContains (strLower expression) "if" then
    "conditional_check"
  else "general_validation"

/-- A processed rule as handed to the evaluator: identification fields, the
`execution_method` chosen by the parser, and the referenced concepts of its
`parsed_expression`. -/
structure CompiledRule where
  ruleCode : String
  ruleLabel : String
  ruleType : String
  executionMethod : String
  concepts : List String
deriving DecidableEq, Repr

/-- A per-rule evaluation outcome (`rule_result` dict). -/
structure RuleResult where
  ruleCode : String
  ruleLabel : String
  ruleType : String
  status : String
  message : String
deriving DecidableEq, Repr

/-- The concept-presence test of `_evaluate_existence_rule`.  Because the
Python conditional expression binds looser than `or`, the test is
`(concept in fact_name or concept == fact_name.split(cln)[-1])` for names
containing a colon and plain equality otherwise. -/
def conceptFoundIn (c : String) (factNames : List String) : Bool :=
  factNames.any fun fn =>
    if strContains fn ":" then strContains fn c || c == lastSplitPart ':' fn
    else c == fn

/-- Python `DMPRuleEvaluator._evaluate_existence_rule`: status and message. -/
def evaluateExistenceRule (rule : CompiledRule) (factNames : List String) :
    String × String :=
  let missing := rule.concepts.filter (fun c => !(conceptFoundIn c factNames))
  if missing.isEmpty then ("passed", "All required concepts found")
  else ("failed", "Missing required concepts: " ++ String.intercalate ", " missing)

/-- The dispatch of `evaluate_rule` by `execution_method`: the four recognized
methods, then the general fallback. -/
def dispatchRule (rule : CompiledRule) (factNames : List String) : String × String :=
  if rule.executionMethod == "existence_check" then
    evaluateExistenceRule rule factNames
  else if rule.executionMethod == "calculation_check" then
    ("skipped", "Calculation rule evaluation not yet implemented")
  else if rule.executionMethod == "consistency_check" then
    ("skipped", "Consistency rule evaluation not yet implemented")
  else if rule.executionMethod == "conditional_check" then
    ("skipped", "Conditional rule evaluation not yet implemented")
  else ("passed", "General rule passed (placeholder)")

/-- Python `DMPRuleEvaluator.evaluate_rule` with its try/except, over an
arbitrary evaluation behavior: `Except.ok` is a branch that returned
status/message, `Except.error` a branch that raised.  The raised exception
becomes a `status error` result for this rule. -/
def evaluateRuleWith (behavior : CompiledRule → Except String (String × String))
    (rule : CompiledRule) : RuleResult :=
  match behavior rule with
  | Except.ok (st, msg) =>
    { ruleCode := rule.ruleCode, ruleLabel := rule.ruleLabel,
      ruleType := rule.ruleType, status := st, message := msg }
  | Except.error e =>
    { ruleCode := rule.ruleCode, ruleLabel := rule.ruleLabel,
      ruleType := rule.ruleType, status := "error",
      message := "Rule evaluation failed: " ++ e }

/-- `evaluate_rule` with the actual dispatch (no exception raised). -/
def evaluateRule (rule : CompiledRule) (factNames : List String) : RuleResult :=
  evaluateRuleWith (fun r => Except.ok (dispatchRule r factNames)) rule

/-- The evaluation loop of `DMPRuleEngine.validate_facts_against_rules`: each
applicable rule is evaluated on its own through the per-rule boundary. -/
def evaluateRules (behavior : CompiledRule → Except String (String × String))
    (rules : List CompiledRule) : List RuleResult :=
  rules.map (evaluateRuleWith behavior)

/-! ## Concrete fixtures used by counterexamples and witnesses -/

/-- A concept row answered from the primary concept table. -/
def sampleConcept : DmpConcept :=
  { conceptCode := "eba_met:qAOF", conceptLabel := "Amount of funding",
    conceptType := "Monetary", metricCode := "", memberXbrlCode := "",
    source := "tConcept" }

/-- A different concept row, also from the primary concept table. -/
def sampleConceptB : DmpConcept :=
  { conceptCode := "eba_met:qAOX", conceptLabel := "Other amount",
    conceptType := "Monetary", metricCode := "", memberXbrlCode := "",
    source := "tConcept" }

/-- A concept row answered from the member table. -/
def sampleMemberConcept : DmpConcept :=
  { conceptCode := "MEM1", conceptLabel := "Member one",
    conceptType := "Member", metricCode := "", memberXbrlCode := "mx1",
    source := "tMember" }

/-- A store on which one fact name satisfies both the exact-match and the
substring-match criteria, with different rows. -/
def bothMatchStore : DmpStore :=
  { exactMatch := fun _ => some sampleConcept
    cleanNameMatch := fun _ => none
    variantMatch := fun _ => none
    substringMatch := fun _ => some sampleConceptB
    memberMatch := fun _ => none }

/-- A resolver behavior that resolves one name out of the member table. -/
def memberOnlyResolver : String → Option DmpConcept := fun n =>
  if n = "eba_MEM:x123" then some sampleMemberConcept else none

/-- The single error entry `process_arelle_output` builds for the
`memberOnlyResolver` fixture. -/
def memberEntryVal : ErrorEntry :=
  { message := "Concept resolved in DMP database: eba_MEM:x123"
    severity := "info"
    code := "CONCEPT-RESOLVED-1"
    concept := "eba_MEM:x123" }

/-- An external-validator stage that completed with one error. -/
def failingArelleStage : ArelleStage :=
  { status := "completed",
    errors := [{ message := "rule eba_v1234_m failed", category := "business_rule" }],
    warnings := [] }

/-- The external-validator stage after a timeout: status only, no issue lists. -/
def timeoutStage : ArelleStage :=
  { status := "timeout", errors := [], warnings := [] }

/-- A compiled rule dispatched to the calculation placeholder. -/
def sampleCalcRule : CompiledRule :=
  { ruleCode := "EBA-R1", ruleLabel := "Calc rule", ruleType := "calculation",
    executionMethod := "calculation_check", concepts := ["Assets"] }

/-- A compiled rule dispatched to the general fallback. -/
def sampleGeneralRule : CompiledRule :=
  { ruleCode := "EBA-R2", ruleLabel := "General rule", ruleType := "",
    executionMethod := "general_validation", concepts := [] }

/-! ## Helper lemmas -/

/-- The overall-status chain case by case. -/
theorem overallStatusOf_spec (e w : ℕ) (r : ℚ) :
    (0 < e → overallStatusOf e w r = "VALIDATION_FAILED") ∧
    (e = 0 → 0 < w → overallStatusOf e w r = "VALIDATION_WARNINGS") ∧
    (e = 0 → w = 0 →
      ((90 ≤ r → overallStatusOf e w r = "EXCELLENT") ∧
       (75 ≤ r → r < 90 → overallStatusOf e w r = "VERY_GOOD") ∧
       (60 ≤ r → r < 75 → overallStatusOf e w r = "GOOD") ∧
       (40 ≤ r → r < 60 → overallStatusOf e w r = "PARTIAL") ∧
       (r < 40 → overallStatusOf e w r = "POOR"))) := by
  refine ⟨fun h => ?_, fun he hw => ?_, fun he hw => ?_⟩
  · unfold overallStatusOf
    rw [if_pos h]
  · subst he
    unfold overallStatusOf
    split_ifs <;> first | rfl | omega
  · subst he
    subst hw
    refine ⟨fun h1 => ?_, fun h1 h2 => ?_, fun h1 h2 => ?_, fun h1 h2 => ?_, fun h1 => ?_⟩ <;>
      (unfold overallStatusOf; split_ifs <;> first | rfl | omega | linarith)

/-- None of the possible overall statuses is the string ABORTED. -/
theorem overallStatusOf_ne_aborted (e w : ℕ) (r : ℚ) :
    overallStatusOf e w r ≠ "ABORTED" := by
  unfold overallStatusOf
  split_ifs <;> decide

/-- The synthesized overall status is the chain applied to the totals. -/
theorem synthesizeResults_overallStatus (arelle : ArelleStage)
    (dmpItems : List SynthIssue) (rate : ℚ) :
    (synthesizeResults arelle dmpItems rate).overallStatus =
      overallStatusOf (synthesizeResults arelle dmpItems rate).totalErrors
        (synthesizeResults arelle dmpItems rate).totalWarnings rate := rfl

/-! ## Claims -/

/-- C3: for every input path and filename, including empty or garbled
filenames and unparseable documents, the architecture detector returns a value
from the closed set arch_1_0 / arch_2_0 / unknown and never raises past its
boundary (parse failures are the `none` document and land in `unknown`). -/
theorem c3_detector_closed_set (xbrlPath : String)
    (doc : Option (List (String × String))) :
    detectArchitectureVersion xbrlPath doc = "arch_1_0" ∨
    detectArchitectureVersion xbrlPath doc = "arch_2_0" ∨
    detectArchitectureVersion xbrlPath doc = "unknown" := by
  unfold detectArchitectureVersion
  cases doc with
  | none =>
    dsimp only
    split_ifs <;>
      first
      | exact Or.inl rfl
      | exact Or.inr (Or.inl rfl)
      | exact Or.inr (Or.inr rfl)
  | some namespaces =>
    dsimp only
    split_ifs <;>
      first
      | exact Or.inl rfl
      | exact Or.inr (Or.inl rfl)
      | exact Or.inr (Or.inr rfl)

/-- C2: the synthesized overall status follows the strict precedence: positive
error count gives VALIDATION_FAILED; otherwise positive warning count gives
VALIDATION_WARNINGS; otherwise the resolution-rate bands at 90 / 75 / 60 / 40
give EXCELLENT / VERY_GOOD / GOOD / PARTIAL and POOR below. -/
theorem c2_overall_status_precedence (arelle : ArelleStage)
    (dmpItems : List SynthIssue) (rate : ℚ) :
    (0 < (synthesizeResults arelle dmpItems rate).totalErrors →
      (synthesizeResults arelle dmpItems rate).overallStatus = "VALIDATION_FAILED") ∧
    ((synthesizeResults arelle dmpItems rate).totalErrors = 0 →
      0 < (synthesizeResults arelle dmpItems rate).totalWarnings →
      (synthesizeResults arelle dmpItems rate).overallStatus = "VALIDATION_WARNINGS") ∧
    ((synthesizeResults arelle dmpItems rate).totalErrors = 0 →
      (synthesizeResults arelle dmpItems rate).totalWarnings = 0 →
      ((90 ≤ rate →
          (synthesizeResults arelle dmpItems rate).overallStatus = "EXCELLENT") ∧
       (75 ≤ rate → rate < 90 →
          (synthesizeResults arelle dmpItems rate).overallStatus = "VERY_GOOD") ∧
       (60 ≤ rate → rate < 75 →
          (synthesizeResults arelle dmpItems rate).overallStatus = "GOOD") ∧
       (40 ≤ rate → rate < 60 →
          (synthesizeResults arelle dmpItems rate).overallStatus = "PARTIAL") ∧
       (rate < 40 →
          (synthesizeResults arelle dmpItems rate).overallStatus = "POOR"))) := by
  rw [synthesizeResults_overallStatus]
  exact overallStatusOf_spec _ _ rate

/-- Witness for C2 at a concrete completed stage with one error. -/
theorem c2_overall_status_precedence_witness :
    (synthesizeResults failingArelleStage [] 95).overallStatus =
      "VALIDATION_FAILED" :=
  (c2_overall_status_precedence failingArelleStage [] 95).1 (by decide)

/-- C8 counterexample: with the external validator timed out (status timeout,
no issue lists), a 95 percent resolution run synthesizes a report whose
validation results contain no issue at all — not exactly one timeout error
Issue — and whose overall status is EXCELLENT. -/
theorem c8_timeout_no_issue_counterexample :
    (synthesizeResults timeoutStage [] 95).validationResults = [] ∧
    (synthesizeResults timeoutStage [] 95).totalErrors = 0 ∧
    (synthesizeResults timeoutStage [] 95).overallStatus = "EXCELLENT" := by
  refine ⟨rfl, rfl, ?_⟩
  rw [synthesizeResults_overallStatus]
  show overallStatusOf 0 0 95 = "EXCELLENT"
  exact ((overallStatusOf_spec 0 0 95).2.2 rfl rfl).1 (by norm_num)

/-- C8 (amended): a timeout of the external validator is mapped by the runner
to a stage result with status timeout and an explanatory message (never an
empty completed result); the synthesized report records that stage status, but
its validation results contain no issue from the external stage (issues are
extracted only from a completed stage), and the run still finishes with an
overall status that is never ABORTED. -/
theorem c8_timeout_stage_surfaced (errs warns : List ArelleIssue)
    (dmpItems : List SynthIssue) (rate : ℚ) :
    arelleExecTimeoutResult =
      ("timeout", "Arelle validation timed out after 120 seconds") ∧
    (synthesizeResults ⟨"timeout", errs, warns⟩ dmpItems rate).arelleStageStatus =
      "timeout" ∧
    (synthesizeResults ⟨"timeout", errs, warns⟩ dmpItems rate).validationResults =
      dmpItems ∧
    (synthesizeResults ⟨"timeout", errs, warns⟩ dmpItems rate).overallStatus ≠
      "ABORTED" := by
  refine ⟨rfl, rfl, rfl, ?_⟩
  rw [synthesizeResults_overallStatus]
  exact overallStatusOf_ne_aborted _ _ rate

/-- C4: the reported resolution rate is resolved facts over business facts
times 100 shown with exactly one decimal digit (the shown tenths value is
within one twentieth of the exact ratio), and is the string 0% whenever there
are no business facts. -/
theorem c4_resolution_rate_spec (r b : ℕ) :
    (b = 0 → resolutionRateString r b = "0%") ∧
    (0 < b → ∃ t : ℕ,
      resolutionRateString r b =
        toString (t / 10) ++ "." ++ toString (t % 10) ++ "%" ∧
      t % 10 < 10 ∧
      |(t : ℚ) / 10 - (r : ℚ) / (b : ℚ) * 100| ≤ 1 / 20) := by
  constructor
  · intro hb
    subst hb
    rfl
  · intro hb
    refine ⟨(round (((r : ℚ) / (b : ℚ) * 100) * 10)).toNat, ?_,
      Nat.mod_lt _ (by norm_num), ?_⟩
    · unfold resolutionRateString formatOneDecimalPercent
      rw [if_pos hb]
    · set q : ℚ := (r : ℚ) / (b : ℚ) * 100 with hq
      have hq0 : 0 ≤ q := by positivity
      have h1 : 0 ≤ round (q * 10) := by
        rw [round_eq]
        have h10 : ((0 : ℤ) : ℚ) ≤ q * 10 + 1 / 2 := by positivity
        exact Int.le_floor.mpr h10
      have h2 : (((round (q * 10)).toNat : ℕ) : ℚ) = ((round (q * 10) : ℤ) : ℚ) := by
        exact_mod_cast congrArg (fun z : ℤ => (z : ℚ)) (Int.toNat_of_nonneg h1)
      rw [h2]
      have h3 : |((round (q * 10) : ℤ) : ℚ) - q * 10| ≤ 1 / 2 := by
        rw [abs_sub_comm]
        exact abs_sub_round (q * 10)
      have key : ((round (q * 10) : ℤ) : ℚ) / 10 - q =
          (((round (q * 10) : ℤ) : ℚ) - q * 10) / 10 := by
        ring
      rw [key, abs_div]
      have h10 : |(10 : ℚ)| = 10 := by norm_num
      rw [h10]
      calc |((round (q * 10) : ℤ) : ℚ) - q * 10| / 10 ≤ (1 / 2) / 10 := by
            exact div_le_div_of_nonneg_right h3 (by norm_num) |>.trans_eq rfl
        _ = 1 / 20 := by norm_num

/-- Witness for C4: zero business facts give 0%, and six of seven resolved
facts give a one-decimal percentage within a twentieth of 600/7. -/
theorem c4_resolution_rate_spec_witness :
    resolutionRateString 0 0 = "0%" ∧
    ∃ t : ℕ,
      resolutionRateString 6 7 =
        toString (t / 10) ++ "." ++ toString (t % 10) ++ "%" ∧
      t % 10 < 10 ∧
      |(t : ℚ) / 10 - ((6 : ℕ) : ℚ) / ((7 : ℕ) : ℚ) * 100| ≤ 1 / 20 :=
  ⟨(c4_resolution_rate_spec 0 0).1 rfl, (c4_resolution_rate_spec 6 7).2 (by norm_num)⟩

/-- The status of an evaluated rule is the first component of its dispatch. -/
theorem evaluateRule_status (rule : CompiledRule) (factNames : List String) :
    (evaluateRule rule factNames).status = (dispatchRule rule factNames).1 := by
  rcases hd : dispatchRule rule factNames with ⟨st, msg⟩
  simp [evaluateRule, evaluateRuleWith, hd]

/-- The dispatch answers skipped for the three placeholder methods. -/
theorem dispatchRule_placeholder_skipped (rule : CompiledRule)
    (factNames : List String)
    (h : rule.executionMethod = "calculation_check" ∨
         rule.executionMethod = "consistency_check" ∨
         rule.executionMethod = "conditional_check") :
    (dispatchRule rule factNames).1 = "skipped" := by
  unfold dispatchRule
  rcases h with h | h | h <;> rw [h] <;> rfl

/-- The dispatch answers passed for the general fallback method. -/
theorem dispatchRule_general_passed (rule : CompiledRule)
    (factNames : List String)
    (h : rule.executionMethod = "general_validation") :
    (dispatchRule rule factNames).1 = "passed" := by
  unfold dispatchRule
  rw [h] <;> rfl

/-- C6: a rule dispatched to the calculation, consistency or conditional
placeholder evaluates to status skipped, never passed and never failed, and a
rule dispatched to the general fallback evaluates to status passed. -/
theorem c6_placeholder_rule_statuses (rule : CompiledRule)
    (factNames : List String) :
    ((rule.executionMethod = "calculation_check" ∨
      rule.executionMethod = "consistency_check" ∨
      rule.executionMethod = "conditional_check") →
      (evaluateRule rule factNames).status = "skipped" ∧
      (evaluateRule rule factNames).status ≠ "passed" ∧
      (evaluateRule rule factNames).status ≠ "failed") ∧
    (rule.executionMethod = "general_validation" →
      (evaluateRule rule factNames).status = "passed") := by
  constructor
  · intro h
    rw [evaluateRule_status, dispatchRule_placeholder_skipped rule factNames h]
    exact ⟨rfl, by decide, by decide⟩
  · intro h
    rw [evaluateRule_status]
    exact dispatchRule_general_passed rule factNames h

/-- Witness for C6 at a concrete calculation rule and a general rule. -/
theorem c6_placeholder_rule_statuses_witness :
    (evaluateRule sampleCalcRule ["ns1:Assets"]).status = "skipped" ∧
    (evaluateRule sampleGeneralRule ["ns1:Assets"]).status = "passed" :=
  ⟨((c6_placeholder_rule_statuses sampleCalcRule ["ns1:Assets"]).1 (Or.inl rfl)).1,
   (c6_placeholder_rule_statuses sampleGeneralRule ["ns1:Assets"]).2 rfl⟩

/-- C7: an exception raised while evaluating one rule becomes a RuleResult for
that rule with status error and an explanatory message, and the result of any
other rule in the evaluation loop depends only on the behavior of evaluation
at that rule, so the exception does not propagate past the per-rule boundary. -/
theorem c7_rule_error_containment
    (behavior behavior2 : CompiledRule → Except String (String × String))
    (rules : List CompiledRule) (rule : CompiledRule) (e : String) :
    (behavior rule = Except.error e →
      (evaluateRuleWith behavior rule).status = "error" ∧
      (evaluateRuleWith behavior rule).message = "Rule evaluation failed: " ++ e ∧
      (evaluateRuleWith behavior rule).ruleCode = rule.ruleCode) ∧
    (∀ (j : ℕ) (r2 : CompiledRule), rules[j]? = some r2 →
      behavior r2 = behavior2 r2 →
      (evaluateRules behavior rules)[j]? = (evaluateRules behavior2 rules)[j]?) := by
  constructor
  · intro h
    refine ⟨?_, ?_, ?_⟩ <;> simp [evaluateRuleWith, h]
  · intro j r2 hj hb
    simp [evaluateRules, List.getElem?_map, hj, evaluateRuleWith, hb]

/-- Witness for C7: a behavior raising boom on a concrete rule yields the
status-error result for that rule. -/
theorem c7_rule_error_containment_witness :
    (evaluateRuleWith (fun _ => Except.error "boom") sampleCalcRule).status =
      "error" ∧
    (evaluateRuleWith (fun _ => Except.error "boom") sampleCalcRule).message =
      "Rule evaluation failed: " ++ "boom" ∧
    (evaluateRuleWith (fun _ => Except.error "boom") sampleCalcRule).ruleCode =
      sampleCalcRule.ruleCode :=
  (c7_rule_error_containment (fun _ => Except.error "boom")
    (fun _ => Except.error "boom") [] sampleCalcRule "boom").1 rfl

/-- C9 counterexample: a rule declared calculation whose expression contains
only an exists token is classified calculation_check, not existence_check, so
the literal tokens do not take precedence over the declared type field. -/
theorem c9_declared_type_wins_counterexample :
    determineExecutionMethod "calculation" "exists(Assets)" = "calculation_check" ∧
    determineExecutionMethod "calculation" "exists(Assets)" ≠ "existence_check" := by
  exact ⟨rfl, by decide⟩

/-- C9 (amended): the parser classifies a rule by scanning the declared type
field and the literal operator tokens together through a fixed priority order
calculation, existence, consistency, conditional, general: at each level
either signal triggers that classification, and an earlier level always beats
a later one, so a declared-calculation rule with only an exists token is
classified for calculation checking. -/
theorem c9_execution_method_priority (ruleType expression : String) :
    ((strContains ruleType "calculation" ||
        strContains (strLower expression) "sum(") = true →
      determineExecutionMethod ruleType expression = "calculation_check") ∧
    ((strContains ruleType "calculation" ||
        strContains (strLower expression) "sum(") = false →
      (strContains ruleType "existence" ||
        strContains (strLower expression) "exists(") = true →
      determineExecutionMethod ruleType expression = "existence_check") ∧
    ((strContains ruleType "calculation" ||
        strContains (strLower expression) "sum(") = false →
      (strContains ruleType "existence" ||
        strContains (strLower expression) "exists(") = false →
      (strContains ruleType "consistency" ||
        ["=", ">", "<"].any (fun op => strContains expression op)) = true →
      determineExecutionMethod ruleType expression = "consistency_check") ∧
    ((strContains ruleType "calculation" ||
        strContains (strLower expression) "sum(") = false →
      (strContains ruleType "existence" ||
        strContains (strLower expression) "exists(") = false →
      (strContains ruleType "consistency" ||
        ["=", ">", "<"].any (fun op => strContains expression op)) = false →
      (strContains ruleType "conditional" ||
        strContains (strLower expression) "if") = true →
      determineExecutionMethod ruleType expression = "conditional_check") ∧
    ((strContains ruleType "calculation" ||
        strContains (strLower expression) "sum(") = false →
      (strContains ruleType "existence" ||
        strContains (strLower expression) "exists(") = false →
      (strContains ruleType "consistency" ||
        ["=", ">", "<"].any (fun op => strContains expression op)) = false →
      (strContains ruleType "conditional" ||
        strContains (strLower expression) "if") = false →
      determineExecutionMethod ruleType expression = "general_validation") := by
  refine ⟨fun h1 => ?_, fun h1 h2 => ?_, fun h1 h2 h3 => ?_,
    fun h1 h2 h3 h4 => ?_, fun h1 h2 h3 h4 => ?_⟩ <;>
    simp_all [determineExecutionMethod]

/-- Witness for C9 at a declared-existence rule with a neutral expression. -/
theorem c9_execution_method_priority_witness :
    determineExecutionMethod "existence" "check Assets" = "existence_check" :=
  (c9_execution_method_priority "existence" "check Assets").2.1 rfl rfl

/-- C5: when the fact name is not cached, the resolver answers the first
strategy hit of the fixed cascade order exact, clean-name, prefix-variant,
partial, member-table, fallback; in particular a name that exact-match
resolves gets the exact-match row (with its provenance field), whatever the
partial-match strategy would have answered. -/
theorem c5_cascade_order (db : DmpStore) (cache : ConceptCache) (name : String)
    (hc : cacheLookup cache name = none) :
    (resolveConceptFromDmp db cache name).1 =
      (strategyResults db name).findSome? id ∧
    (∀ c, db.exactMatch name = some c →
      (resolveConceptFromDmp db cache name).1 = some c) := by
  constructor
  · unfold resolveConceptFromDmp
    rw [hc]
    unfold searchCascade strategyResults
    cases db.exactMatch name <;>
      cases db.cleanNameMatch (cleanConceptName name) <;>
        cases db.variantMatch name <;>
          cases db.substringMatch (cleanConceptName name) <;>
            cases db.memberMatch name <;>
              simp [searchUsingQueriesManager, List.findSome?]
  · intro c hx
    have hs : searchCascade db name = some c := by
      unfold searchCascade
      rw [hx]
    unfold resolveConceptFromDmp
    rw [hc, hs]

/-- Witness for C5 on a store where one name matches both the exact and the
partial criteria with different rows: the exact row is returned. -/
theorem c5_cascade_order_witness :
    (resolveConceptFromDmp bothMatchStore [] "eba_met:qAOF").1 =
      some sampleConcept :=
  (c5_cascade_order bothMatchStore [] "eba_met:qAOF" rfl).2 sampleConcept rfl

/-- Looking up a freshly cached name finds the cached concept. -/
theorem cacheLookup_cons_self (cache : ConceptCache) (name : String)
    (c : DmpConcept) :
    cacheLookup ((name, c) :: cache) name = some c := by
  simp [cacheLookup, List.find?]

/-- C10: a fact name that resolves to a concept is cached, and resolving it
again against the unchanged store returns the identical concept and leaves the
cache unchanged. -/
theorem c10_repeat_resolution_identical (db : DmpStore) (cache : ConceptCache)
    (name : String) (c : DmpConcept)
    (h : (resolveConceptFromDmp db cache name).1 = some c) :
    resolveConceptFromDmp db (resolveConceptFromDmp db cache name).2 name =
      (some c, (resolveConceptFromDmp db cache name).2) := by
  cases hl : cacheLookup cache name with
  | some d =>
    have hr : resolveConceptFromDmp db cache name = (some d, cache) := by
      simp [resolveConceptFromDmp, hl]
    rw [hr] at h ⊢
    simp only [Option.some.injEq] at h
    subst h
    simp [resolveConceptFromDmp, hl]
  | none =>
    cases hs : searchCascade db name with
    | none =>
      have hr : resolveConceptFromDmp db cache name = (none, cache) := by
        simp [resolveConceptFromDmp, hl, hs]
      rw [hr] at h
      simp at h
    | some d =>
      have hr : resolveConceptFromDmp db cache name =
          (some d, (name, d) :: cache) := by
        simp [resolveConceptFromDmp, hl, hs]
      rw [hr] at h ⊢
      simp only [Option.some.injEq] at h
      subst h
      simp [resolveConceptFromDmp, cacheLookup_cons_self]

/-- Witness for C10 at a concrete store and name. -/
theorem c10_repeat_resolution_identical_witness :
    resolveConceptFromDmp bothMatchStore
        (resolveConceptFromDmp bothMatchStore [] "eba_met:qAOF").2 "eba_met:qAOF" =
      (some sampleConcept,
        (resolveConceptFromDmp bothMatchStore [] "eba_met:qAOF").2) :=
  c10_repeat_resolution_identical bothMatchStore [] "eba_met:qAOF" sampleConcept rfl

/-- The severity given to a resolved concept is never the string error. -/
theorem severityForResolved_ne_error (d : DmpConcept) :
    severityForResolved d ≠ "error" := by
  unfold severityForResolved
  split_ifs <;> decide

/-- Every entry of the resolved loop carries the fact name and the severity of
its originating pair. -/
theorem mem_resolvedEntriesFrom (rs : List (String × DmpConcept)) (i : ℕ)
    (e : ErrorEntry) (he : e ∈ resolvedEntriesFrom rs i) :
    ∃ p, p ∈ rs ∧ e.concept = p.1 ∧ e.severity = severityForResolved p.2 := by
  induction rs generalizing i with
  | nil => simp [resolvedEntriesFrom] at he
  | cons hd tl ih =>
    rcases hd with ⟨n, d⟩
    rw [resolvedEntriesFrom] at he
    rcases List.mem_cons.mp he with rfl | he
    · exact ⟨(n, d), List.mem_cons_self _ _, rfl, rfl⟩
    · obtain ⟨p, hp, h1, h2⟩ := ih (i + 1) he
      exact ⟨p, List.mem_cons_of_mem _ hp, h1, h2⟩

/-- Every entry of the unresolved loop carries its name and severity error. -/
theorem mem_unresolvedEntriesFrom (us : List String) (i : ℕ) (e : ErrorEntry)
    (he : e ∈ unresolvedEntriesFrom us i) :
    e.concept ∈ us ∧ e.severity = "error" := by
  induction us generalizing i with
  | nil => simp [unresolvedEntriesFrom] at he
  | cons n tl ih =>
    rw [unresolvedEntriesFrom] at he
    rcases List.mem_cons.mp he with rfl | he
    · exact ⟨List.mem_cons_self _ _, rfl⟩
    · obtain ⟨h1, h2⟩ := ih (i + 1) he
      exact ⟨List.mem_cons_of_mem _ h1, h2⟩

/-- C1 (amended): every entry of the processed external-validator output is
either for a concept the resolver found — recorded with the resolved severity
(warning, or info when the match came from the member table) and never with
severity error — or for a concept that stayed unresolved, recorded with
severity error. -/
theorem c1_resolved_severity (resolve : String → Option DmpConcept)
    (missing : List String) (e : ErrorEntry)
    (he : e ∈ processArelleOutputErrors resolve missing) :
    (∃ d, resolve e.concept = some d ∧ e.severity = severityForResolved d ∧
      e.severity ≠ "error") ∨
    (resolve e.concept = none ∧ e.severity = "error") := by
  simp only [processArelleOutputErrors] at he
  rcases List.mem_append.mp he with h | h
  · left
    obtain ⟨p, hp, hc, hs⟩ := mem_resolvedEntriesFrom _ _ _ h
    obtain ⟨n, hn, hf⟩ := List.mem_filterMap.mp hp
    cases hr : resolve n with
    | none =>
      rw [hr] at hf
      simp at hf
    | some d =>
      rw [hr] at hf
      simp only [Option.map_some', Option.some.injEq] at hf
      subst hf
      refine ⟨d, ?_, hs, ?_⟩
      · rw [hc]
        exact hr
      · rw [hs]
        exact severityForResolved_ne_error d
  · right
    obtain ⟨h1, h2⟩ := mem_unresolvedEntriesFrom _ _ _ h
    have h3 := List.mem_filter.mp h1
    exact ⟨Option.isNone_iff_eq_none.mp h3.2, h2⟩

/-- C1 counterexample: a concept resolved out of the member table is recorded
with severity info, not warning, so resolved concepts are not always warnings. -/
theorem c1_member_resolved_info_counterexample :
    (memberOnlyResolver "eba_MEM:x123").isSome = true ∧
    (processArelleOutputErrors memberOnlyResolver ["eba_MEM:x123"]).map
      (fun e => e.severity) = ["info"] ∧
    ("info" : String) ≠ "warning" := by
  exact ⟨rfl, rfl, by decide⟩

/-- Witness for C1 at the member-table fixture entry. -/
theorem c1_resolved_severity_witness :
    (∃ d, memberOnlyResolver memberEntryVal.concept = some d ∧
      memberEntryVal.severity = severityForResolved d ∧
      memberEntryVal.severity ≠ "error") ∨
    (memberOnlyResolver memberEntryVal.concept = none ∧
      memberEntryVal.severity = "error") :=
  c1_resolved_severity memberOnlyResolver ["eba_MEM:x123"] memberEntryVal (by decide)
